import Mathlib

/-!
Shallow embedding of the media-generation pipeline of `create_video_ui.py`
(Livings5858/image2video).  Each external subprocess invocation is modelled
by an explicit outcome value (a return code together with the captured
standard output, or a timeout); the control flow, string parsing, geometry
arithmetic, audio loop computation and progress-callback discipline are
translated directly from the source.  Python exceptions that the source can
actually raise on the modelled paths are represented with `Except`.  The
model assumes the external binaries are installed (so `FileNotFoundError`
from `subprocess.run` is out of scope); `subprocess.CalledProcessError` can
never be raised because the source never passes `check=True`.
-/

set_option autoImplicit false

namespace ImageToVideo

/-- Errors the translated Python code can raise on the modelled paths:
the uncaught `IndexError` from the EXIF output parse in `get_exif_data`
(line 29 of the source), and the `NameError` from evaluating the unbound
variable `progress` in the unguarded callback call on the last line of
`create_video` (line 328 of the source). -/
inductive PyErr where
  | indexError
  | nameError
deriving DecidableEq

/-- Outcome of one `subprocess.run` invocation of an installed external
binary: the process completed with a return code and captured standard
output, or the call hit its timeout (`subprocess.TimeoutExpired`). -/
inductive ProcResult where
  | completed (returncode : Int) (stdout : String)
  | timedOut
deriving DecidableEq

/-- `True` exactly when the `Except` value is `ok`, i.e. the translated
Python code returned normally instead of raising. -/
def isOkE {α : Type} (x : Except PyErr α) : Bool :=
  match x with
  | Except.ok _ => true
  | Except.error _ => false

/-- `True` exactly when `process_image` returned `True` (the image was
composed successfully). -/
def isSuccess (x : Except PyErr Bool) : Bool :=
  match x with
  | Except.ok true => true
  | _ => false

/-- Splitting a character list on a separator character, Python style: the
result has one (possibly empty) piece per separator gap, and splitting the
empty string yields one empty piece. -/
def splitCharAux (c : Char) : List Char → List (List Char)
  | [] => [[]]
  | ch :: rest =>
    let r := splitCharAux c rest
    if ch = c then [] :: r
    else (ch :: r.headD []) :: r.tail

/-- Python `s.split(c)` for a single-character separator (the source only
splits on a newline, a comma or a colon). -/
def pySplitChar (c : Char) (s : String) : List String :=
  (splitCharAux c s.data).map String.mk

/-- Python `s.strip()`: remove leading and trailing whitespace. -/
def pyStrip (s : String) : String :=
  String.mk (((s.data.dropWhile Char.isWhitespace).reverse.dropWhile Char.isWhitespace).reverse)

/-- Python `s.replace(' ', '')`: remove every space character. -/
def removeSpaces (s : String) : String :=
  String.mk (s.data.filter (fun ch => ch ≠ ' '))

/-- Accumulating decimal parse of a digit run; `none` as soon as a
non-digit appears. -/
def digitsToNatAux : List Char → Nat → Option Nat
  | [], acc => some acc
  | ch :: rest, acc =>
    if ch.isDigit then digitsToNatAux rest (acc * 10 + (ch.toNat - 48)) else none

/-- Python `int(s)` applied to a probed dimension field: surrounding
whitespace allowed, an optional sign followed by at least one decimal
digit; `none` models the `ValueError` branch (source lines 59-64). -/
def pyInt (s : String) : Option Int :=
  match (pyStrip s).data with
  | [] => none
  | ch :: rest =>
    if ch = Char.ofNat 45 then
      match rest with
      | [] => none
      | _ => (digitsToNatAux rest 0).map (fun n => -(n : Int))
    else if ch = Char.ofNat 43 then
      match rest with
      | [] => none
      | _ => (digitsToNatAux rest 0).map (fun n => (n : Int))
    else (digitsToNatAux (ch :: rest) 0).map (fun n => (n : Int))

/-- `bg_height = int(width * 9 / 16)` (source line 67).  Python evaluates
`width * 9 / 16` in exact double arithmetic for every magnitude an image
probe can produce (division by 16 is a power of two), and `int` truncates
toward zero, which is `Int.tdiv`. -/
def bg_height (width : Int) : Int := Int.tdiv (width * 9) 16

/-- `info_height = int(bg_height * 0.2)` (source line 71).  Truncating the
double product by the nearest double to `0.2` agrees with truncating exact
division by 5 for every height below `10^15`, so the model uses `Int.tdiv`
by 5. -/
def info_height (bgH : Int) : Int := Int.tdiv bgH 5

/-- `total_height = bg_height + info_height` (source line 74). -/
def total_height (width : Int) : Int := bg_height width + info_height (bg_height width)

/-- `font_size = max(40, int(total_height * 0.025))` (source line 85); as for
`info_height`, truncating the double product agrees with truncating exact
division by 40. -/
def font_size (totalH : Int) : Int := max 40 (Int.tdiv totalH 40)

/-- The frame geometry `process_image` derives from the probed source width
(source lines 66-85); the background width is the source width itself
(`bg_width = width`, line 68). -/
structure FrameSpec where
  bgWidth : Int
  bgHeight : Int
  infoHeight : Int
  totalHeight : Int
  fontSize : Int
deriving DecidableEq

/-- Geometry derivation of `process_image` as a function of the probed
width. -/
def frameSpec (width : Int) : FrameSpec :=
  { bgWidth := width
    bgHeight := bg_height width
    infoHeight := info_height (bg_height width)
    totalHeight := total_height width
    fontSize := font_size (total_height width) }

/-- Modelled from the spec: the specification says the geometry uses
"round" (`round(sourceWidth × 9/16)` and so on), meaning rounding the exact
rational `a / b` to the nearest integer; this definition (round half up) is
used only to compare the specified geometry against the implemented one. -/
def spec_round_div (a b : Nat) : Nat := (2 * a + b) / (2 * b)

/-- The metadata record built by `get_exif_data` (source lines 28-33). -/
structure ExifData where
  make : String
  iso : String
  shutter : String
  fnumber : String
deriving DecidableEq

/-- One field of the EXIF parse:
`lines[k].replace(' ', '').split(':')[1] if len(lines) > k else 'N/A'`
(source lines 29-32).  When line `k` exists but contains no colon, the `[1]`
subscript raises `IndexError`, which nothing in the source catches. -/
def parse_exif_field (lines : List String) (k : Nat) : Except PyErr String :=
  match lines[k]? with
  | none => Except.ok "N/A"
  | some line =>
    match (pySplitChar (Char.ofNat 58) (removeSpaces line))[1]? with
    | none => Except.error PyErr.indexError
    | some v => Except.ok v

/-- `get_exif_data` (source lines 19-35) as a function of the captured
standard output of the `exiftool` invocation.  The invocation has no
timeout and no `check=True`, and the binaries are installed in this model,
so the `except (CalledProcessError, FileNotFoundError)` branch (which would
return a record holding only `iso` and `shutter`) is unreachable; the body
parses `result.stdout.strip().split('\n')` positionally. -/
def get_exif_data (stdout : String) : Except PyErr ExifData := do
  let lines := pySplitChar (Char.ofNat 10) (pyStrip stdout)
  let mk ← parse_exif_field lines 0
  let iso ← parse_exif_field lines 1
  let sh ← parse_exif_field lines 2
  let fn ← parse_exif_field lines 3
  Except.ok { make := mk, iso := iso, shutter := sh, fnumber := fn }

/-- The caption synthesis of `process_image` (source lines 77-82): the
supplied text if nonempty, otherwise the EXIF caption when iso, shutter and
f-number are all available, otherwise the dated default. -/
def captionFor (text exifOut date : String) : Except PyErr String :=
  if text = "" then
    match get_exif_data exifOut with
    | Except.error e => Except.error e
    | Except.ok d =>
      if d.iso ≠ "N/A" ∧ d.shutter ≠ "N/A" ∧ d.fnumber ≠ "N/A" then
        Except.ok (d.make ++ " f/" ++ d.fnumber ++ " " ++ d.shutter ++ "s ISO" ++ d.iso)
      else
        Except.ok ("Processed " ++ date)
  else Except.ok text

/-- Environment of one `process_image` call: the outcome of the `ffprobe`
dimension query, the standard output the `exiftool` invocation would
produce, and the outcome of the compositing `ffmpeg` invocation. -/
structure ImageEnv where
  probe : ProcResult
  exifOut : String
  compose : ProcResult
deriving DecidableEq

/-- `process_image` (source lines 37-124).  Returns `ok false` on probe
timeout or nonzero probe exit, on dimension output with fewer than two
comma-separated fields or unparsable integers, on compositing timeout or
nonzero compositing exit; returns `ok true` when the compositing invocation
exits 0; propagates the `IndexError` of `get_exif_data` when the caption is
auto-generated and the EXIF output is unparsable. -/
def process_image (e : ImageEnv) (text date : String) : Except PyErr Bool :=
  match e.probe with
  | ProcResult.timedOut => Except.ok false
  | ProcResult.completed rc out =>
    if rc ≠ 0 then Except.ok false
    else
      let dims := pySplitChar (Char.ofNat 44) (pyStrip out)
      if dims.length < 2 then Except.ok false
      else
        match pyInt (dims.getD 0 ""), pyInt (dims.getD 1 "") with
        | some width, some _height =>
          let _spec := frameSpec width
          match captionFor text e.exifOut date with
          | Except.error err => Except.error err
          | Except.ok _caption =>
            match e.compose with
            | ProcResult.timedOut => Except.ok false
            | ProcResult.completed crc _ => if crc ≠ 0 then Except.ok false else Except.ok true
        | _, _ => Except.ok false

/-- The per-image failure condition enumerated by the specification for the
Frame Compositor: dimension probe failure or timeout, invalid or unparsable
dimensions, compositing-tool nonzero exit, or compositing timeout. -/
def imageFailCond (e : ImageEnv) : Bool :=
  (match e.probe with
   | ProcResult.timedOut => true
   | ProcResult.completed rc out =>
     rc ≠ 0 ||
       (let dims := pySplitChar (Char.ofNat 44) (pyStrip out)
        decide (dims.length < 2) || (pyInt (dims.getD 0 "")).isNone ||
          (pyInt (dims.getD 1 "")).isNone)) ||
  (match e.compose with
   | ProcResult.timedOut => true
   | ProcResult.completed crc _ => crc ≠ 0)

/-- Outcome of the `ffprobe` duration query in `get_audio_duration`
(source lines 126-140): structured output carrying a duration, output whose
parsed JSON lacks `format.duration` (`KeyError`), malformed JSON
(`json.JSONDecodeError`), or a timeout. -/
inductive AudioProbe where
  | ok (duration : ℚ)
  | noDuration
  | badJson
  | timedOut
deriving DecidableEq

/-- `get_audio_duration` (source lines 126-140): the parsed duration, or 0
on every handled failure. -/
def get_audio_duration (p : AudioProbe) : ℚ :=
  match p with
  | AudioProbe.ok d => d
  | _ => 0

/-- Environment of one `process_audio_for_video` call: the duration probe
outcome and the outcome of the looping `ffmpeg` invocation. -/
structure AudioJobEnv where
  probe : AudioProbe
  job : ProcResult
deriving DecidableEq

/-- The parameters of the audio-conditioning `ffmpeg` command built by
`process_audio_for_video` (source lines 158-169): the `-stream_loop`
argument and the `-t` truncation argument. -/
structure AudioCmd where
  loop_count : ℤ
  truncate_t : ℚ
deriving DecidableEq

/-- `process_audio_for_video` (source lines 142-187): `none` when the
probed duration is non-positive, when the conditioning invocation times out
or exits nonzero; otherwise the conditioned track, described by the
command parameters `loop_count = math.ceil(video_duration / audio_duration)`
and `-t video_duration`. -/
def process_audio_for_video (env : AudioJobEnv) (video_duration : ℚ) : Option AudioCmd :=
  let audio_duration := get_audio_duration env.probe
  if audio_duration ≤ 0 then none
  else
    let loop_count := Int.ceil (video_duration / audio_duration)
    match env.job with
    | ProcResult.timedOut => none
    | ProcResult.completed rc _ => if rc ≠ 0 then none else some ⟨loop_count, video_duration⟩

/-- The two phases the progress callback reports (source lines 222, 292,
307, 328). -/
inductive Phase where
  | processing
  | compiling
deriving DecidableEq

/-- One invocation of the progress callback: `(current, total, phase)`. -/
structure CbCall where
  current : ℚ
  total : ℚ
  phase : Phase
deriving DecidableEq

/-- `progress = 70 + 30 * (proc.poll() is None) / 2` (source line 306):
`b` records whether `poll()` returned `None` (process still running) when
the line was read, so the value is 85 when it did and 70 otherwise. -/
def muxProgress (b : Bool) : ℚ := 70 + 30 * (if b then 1 else 0) / 2

/-- Environment of one `create_video` run: per-image subprocess outcomes,
the optional audio environment (`some` exactly when `music` was supplied),
whether `libx264` appears in the codec listing, whether the muxing `Popen`
raises, the liveness bit observed for each line read from the muxing
process output, the muxing return code, and the date used for default
captions. -/
structure RunEnv where
  images : List ImageEnv
  music : Option AudioJobEnv
  libx264 : Bool
  muxRaises : Bool
  muxLines : List Bool
  muxReturncode : Int
  date : String
deriving DecidableEq

/-- Observable outcome of one `create_video` run: the returned value (or
the exception that escaped), the full progress-callback trace, whether
`shutil.rmtree(temp_dir)` ran by the end of the run, whether the muxing
invocation was reached, the computed `total_duration` (when computed), and
whether the mux command included the conditioned audio input. -/
structure RunResult where
  ret : Except PyErr Bool
  callbacks : List CbCall
  tempDirRemoved : Bool
  muxInvoked : Bool
  totalDuration : Option ℚ
  usedAudio : Bool
  codec : Option String

/-- The image-processing loop of `create_video` (source lines 214-224),
returning the number of successfully processed images together with the
progress-callback trace; a raise from `process_image` aborts the loop with
the callbacks already delivered.  The callback is invoked, when supplied,
only in the success branch, with `(i + 1, total_images, "processing")`. -/
def processPhase (hasCb : Bool) (total : Nat) (date : String) :
    List ImageEnv → Nat → Except PyErr Nat × List CbCall
  | [], _ => (Except.ok 0, [])
  | e :: rest, i =>
    match process_image e "" date with
    | Except.error err => (Except.error err, [])
    | Except.ok true =>
      let r := processPhase hasCb total date rest (i + 1)
      (r.1.map (fun n => n + 1),
        (if hasCb then [⟨((i : ℚ) + 1), (total : ℚ), Phase.processing⟩] else []) ++ r.2)
    | Except.ok false => processPhase hasCb total date rest (i + 1)

/-- The per-index processing-callback trace the loop produces: one
`(i + 1, total, "processing")` call for each successful attempt at index
`i`, none for failed attempts. -/
def expectedProcessing (hasCb : Bool) (total : Nat) (date : String) :
    List ImageEnv → Nat → List CbCall
  | [], _ => []
  | e :: rest, i =>
    (if isSuccess (process_image e "" date) && hasCb then
      [⟨((i : ℚ) + 1), (total : ℚ), Phase.processing⟩]
     else []) ++ expectedProcessing hasCb total date rest (i + 1)

/-- Number of images of the run that compose successfully. -/
def succCount (env : RunEnv) : Nat :=
  env.images.countP (fun e => isSuccess (process_image e "" env.date))

/-- The remainder of `create_video` after the image loop (source lines
226-329): the zero-success early return, the `total_duration` computation,
optional audio conditioning, encoder choice, the muxing invocation with its
line-by-line callbacks, the unconditional `shutil.rmtree`, the return-code
check, and the final unguarded `progress_callback(progress, 100,
"compiling")` of the success path, which raises `NameError` unless the
callback was supplied and at least one output line bound `progress`. -/
def runAfterImages (env : RunEnv) (duration : ℚ) (hasCb : Bool) (processed : Nat)
    (pcbs : List CbCall) : RunResult :=
  if processed = 0 then
    { ret := Except.ok false, callbacks := pcbs, tempDirRemoved := true, muxInvoked := false,
      totalDuration := none, usedAudio := false, codec := none }
  else
    let total_duration : ℚ := (processed : ℚ) * duration
    let final_audio := Option.bind env.music (fun a => process_audio_for_video a total_duration)
    let codec := if env.libx264 then "libx264" else "h264"
    let cbs1 := pcbs ++ (if hasCb then [⟨0, 0, Phase.compiling⟩] else [])
    if env.muxRaises then
      { ret := Except.ok false, callbacks := cbs1, tempDirRemoved := true, muxInvoked := true,
        totalDuration := some total_duration, usedAudio := final_audio.isSome,
        codec := some codec }
    else
      let cbs2 := cbs1 ++
        (if hasCb then env.muxLines.map (fun b => ⟨muxProgress b, 100, Phase.compiling⟩) else [])
      if env.muxReturncode ≠ 0 then
        { ret := Except.ok false, callbacks := cbs2, tempDirRemoved := true, muxInvoked := true,
          totalDuration := some total_duration, usedAudio := final_audio.isSome,
          codec := some codec }
      else
        match hasCb, env.muxLines.getLast? with
        | true, some b =>
          { ret := Except.ok true,
            callbacks := cbs2 ++ [⟨muxProgress b, 100, Phase.compiling⟩],
            tempDirRemoved := true, muxInvoked := true, totalDuration := some total_duration,
            usedAudio := final_audio.isSome, codec := some codec }
        | _, _ =>
          { ret := Except.error PyErr.nameError, callbacks := cbs2, tempDirRemoved := true,
            muxInvoked := true, totalDuration := some total_duration,
            usedAudio := final_audio.isSome, codec := some codec }

/-- `create_video` (source lines 206-329): the scratch directory is created,
the image loop runs (a raise escapes with the directory still present),
then `runAfterImages` performs the rest of the run. -/
def create_video (env : RunEnv) (duration : ℚ) (hasCb : Bool) : RunResult :=
  match processPhase hasCb env.images.length env.date env.images 0 with
  | (Except.error e, pcbs) =>
    { ret := Except.error e, callbacks := pcbs, tempDirRemoved := false, muxInvoked := false,
      totalDuration := none, usedAudio := false, codec := none }
  | (Except.ok processed, pcbs) => runAfterImages env duration hasCb processed pcbs

/-- `True` exactly when the callback invocation belongs to the
image-processing phase. -/
def isProcessingCb (c : CbCall) : Bool :=
  match c.phase with
  | Phase.processing => true
  | Phase.compiling => false

theorem processPhase_noRaise (hasCb : Bool) (total : Nat) (date : String) (l : List ImageEnv)
    (i : Nat) (h : ∀ e ∈ l, isOkE (process_image e "" date) = true) :
    processPhase hasCb total date l i =
      (Except.ok (l.countP (fun e => isSuccess (process_image e "" date))),
       expectedProcessing hasCb total date l i) := by
  induction l generalizing i with
  | nil => rfl
  | cons e rest ih =>
    have he : isOkE (process_image e "" date) = true := h e (List.mem_cons_self e rest)
    have hr : ∀ x ∈ rest, isOkE (process_image x "" date) = true :=
      fun x hx => h x (List.mem_cons_of_mem e hx)
    cases hpe : process_image e "" date with
    | error err => rw [hpe] at he; simp [isOkE] at he
    | ok b =>
      cases b with
      | true =>
        simp [processPhase, expectedProcessing, hpe, ih (i + 1) hr, List.countP_cons,
          isSuccess, Except.map, Nat.add_comm]
      | false =>
        simp [processPhase, expectedProcessing, hpe, ih (i + 1) hr, List.countP_cons, isSuccess]

theorem expectedProcessing_all_processing (hasCb : Bool) (total : Nat) (date : String)
    (l : List ImageEnv) (i : Nat) :
    (expectedProcessing hasCb total date l i).filter isProcessingCb =
      expectedProcessing hasCb total date l i := by
  induction l generalizing i with
  | nil => rfl
  | cons e rest ih =>
    simp only [expectedProcessing, List.filter_append, ih (i + 1)]
    split
    · simp [List.filter, isProcessingCb]
    · simp

theorem expectedProcessing_length (total : Nat) (date : String) (l : List ImageEnv) (i : Nat) :
    (expectedProcessing true total date l i).length =
      l.countP (fun e => isSuccess (process_image e "" date)) := by
  induction l generalizing i with
  | nil => rfl
  | cons e rest ih =>
    simp only [expectedProcessing, List.length_append, ih (i + 1), List.countP_cons]
    split
    · simp_all [Nat.add_comm]
    · simp_all

theorem runAfterImages_removed (env : RunEnv) (d : ℚ) (cb : Bool) (processed : Nat)
    (pcbs : List CbCall) : (runAfterImages env d cb processed pcbs).tempDirRemoved = true := by
  simp only [runAfterImages]
  split
  · rfl
  · split
    · rfl
    · split
      · rfl
      · split <;> rfl

theorem runAfterImages_muxInvoked (env : RunEnv) (d : ℚ) (cb : Bool) (processed : Nat)
    (pcbs : List CbCall) (h0 : processed ≠ 0) :
    (runAfterImages env d cb processed pcbs).muxInvoked = true := by
  simp only [runAfterImages]
  rw [if_neg h0]
  split
  · rfl
  · split
    · rfl
    · split <;> rfl

theorem filter_compiling_map (l : List Bool) :
    (l.map (fun b => (⟨muxProgress b, 100, Phase.compiling⟩ : CbCall))).filter
      isProcessingCb = [] := by
  induction l with
  | nil => rfl
  | cons b rest ih => simp [List.filter, isProcessingCb, ih]

theorem runAfterImages_filter (env : RunEnv) (d : ℚ) (cb : Bool) (processed : Nat)
    (pcbs : List CbCall) :
    (runAfterImages env d cb processed pcbs).callbacks.filter isProcessingCb =
      pcbs.filter isProcessingCb := by
  have h1 : ∀ x : List CbCall, (if cb then x else []).filter isProcessingCb =
      (if cb then x.filter isProcessingCb else []) := by
    intro x; split <;> rfl
  have h3 : ∀ q t : ℚ, List.filter isProcessingCb [(⟨q, t, Phase.compiling⟩ : CbCall)] = [] :=
    fun q t => rfl
  simp only [runAfterImages]
  split
  · rfl
  · split
    · simp only [List.filter_append, h1, h3, filter_compiling_map, eq_self_iff_true,
        if_true, ite_self, List.append_nil]
    · split
      · simp only [List.filter_append, h1, h3, filter_compiling_map, eq_self_iff_true,
          if_true, ite_self, List.append_nil]
      · split
        · simp only [List.filter_append, h1, h3, filter_compiling_map, eq_self_iff_true,
            if_true, ite_self, List.append_nil]
        · simp only [List.filter_append, h1, h3, filter_compiling_map, eq_self_iff_true,
            if_true, ite_self, List.append_nil]

/-- Concrete run refuting C1 as stated: one image composes successfully and
the mux exits 0, but no progress callback is supplied. -/
def envC1x : RunEnv :=
  ⟨[⟨ProcResult.completed 0 "64,36", "a:b", ProcResult.completed 0 ""⟩], none, true, false,
    [false], 0, "2024-01-03"⟩

/-- Concrete run witnessing the amended C1: one image composes successfully,
a callback is supplied, the mux emits one line and exits 0. -/
def envC1w : RunEnv :=
  ⟨[⟨ProcResult.completed 0 "1920,1080", "a:b", ProcResult.completed 0 ""⟩], none, true, false,
    [true], 0, "2024-01-03"⟩

/-- Concrete run witnessing C2: the single image probe times out, so zero
images compose. -/
def envC2w : RunEnv :=
  ⟨[⟨ProcResult.timedOut, "", ProcResult.completed 0 ""⟩], none, true, false, [true], 0, "d"⟩

/-- Concrete run refuting C2 as stated: zero images compose successfully,
but the single attempt raises (successful probe, empty EXIF output), so the
run propagates the exception instead of returning `False` and the scratch
directory survives. -/
def envC2x : RunEnv :=
  ⟨[⟨ProcResult.completed 0 "6,6", "", ProcResult.completed 0 ""⟩], none, true, false, [true],
    0, "2024-02-01"⟩

/-- Concrete run refuting C3 as stated: the single image probes fine but
its EXIF output is empty, so the auto-caption parse raises `IndexError`
inside the image loop. -/
def envC3x : RunEnv :=
  ⟨[⟨ProcResult.completed 0 "8,8", "", ProcResult.completed 0 ""⟩], none, true, false, [true],
    0, "2024-01-01"⟩

/-- Concrete run witnessing the amended C3: the image fails composition and
the muxing `Popen` raises. -/
def envC3w : RunEnv :=
  ⟨[⟨ProcResult.timedOut, "x", ProcResult.timedOut⟩], none, false, true, [], 3, "d2"⟩

/-- Concrete run refuting C6 as stated: two attempts (first fails with a
probe timeout, second succeeds), so the claim predicts two "processing"
callbacks. -/
def envC6x : RunEnv :=
  ⟨[⟨ProcResult.timedOut, "", ProcResult.completed 0 ""⟩,
    ⟨ProcResult.completed 0 "64,36", "a:b", ProcResult.completed 0 ""⟩], none, true, false,
    [true], 0, "2024-01-05"⟩

/-- Concrete run witnessing the amended C6: a success followed by a
failure. -/
def envC6w : RunEnv :=
  ⟨[⟨ProcResult.completed 0 "64,36", "a:b", ProcResult.completed 0 ""⟩,
    ⟨ProcResult.completed (-1) "64,36", "a:b", ProcResult.completed 0 ""⟩], none, true, false,
    [true], 0, "2024-01-06"⟩

/-- Concrete run refuting C9 as stated: the successful run whose last
observed mux line sees the process already finished, so the final callback
reports 70, not 100. -/
def envC9x : RunEnv :=
  ⟨[⟨ProcResult.completed 0 "64,36", "a:b", ProcResult.completed 0 ""⟩], none, true, false,
    [false], 0, "2024-01-07"⟩

/-- Concrete run witnessing the amended C9. -/
def envC9w : RunEnv :=
  ⟨[⟨ProcResult.completed 0 "64,36", "a:b", ProcResult.completed 0 ""⟩], none, true, false,
    [true], 0, "2024-01-08"⟩

/-- Concrete run exhibiting the C10 bug: two images compose successfully,
the mux exits 0, and no progress callback is supplied. -/
def envC10x : RunEnv :=
  ⟨[⟨ProcResult.completed 0 "100,50", "a:b", ProcResult.completed 0 ""⟩,
    ⟨ProcResult.completed 0 "100,50", "a:b", ProcResult.completed 0 ""⟩], none, true, false,
    [true, true], 0, "2024-01-02"⟩

theorem runAfterImages_success (env : RunEnv) (d : ℚ) (processed : Nat) (pcbs : List CbCall)
    (h0 : processed ≠ 0) (hraise : env.muxRaises = false) (hrc : env.muxReturncode = 0)
    (b : Bool) (hlast : env.muxLines.getLast? = some b) :
    runAfterImages env d true processed pcbs =
      { ret := Except.ok true,
        callbacks := (pcbs ++ [⟨0, 0, Phase.compiling⟩] ++
          env.muxLines.map (fun x => ⟨muxProgress x, 100, Phase.compiling⟩)) ++
          [⟨muxProgress b, 100, Phase.compiling⟩],
        tempDirRemoved := true, muxInvoked := true,
        totalDuration := some ((processed : ℚ) * d),
        usedAudio := (Option.bind env.music
          (fun a => process_audio_for_video a ((processed : ℚ) * d))).isSome,
        codec := some (if env.libx264 then "libx264" else "h264") } := by
  simp only [runAfterImages]
  rw [if_neg h0, hraise, hlast]
  simp [hrc]

/-- C2 is refuted at the concrete run `envC2x`: zero of its images compose
successfully, as the claim's premise requires, but the single attempt
raises `IndexError` (empty EXIF output), so `create_video` propagates the
exception instead of returning `False` and the scratch directory still
exists afterward. -/
theorem C2_counterexample :
    succCount envC2x = 0 ∧
    (create_video envC2x 5 true).ret = Except.error PyErr.indexError ∧
    (create_video envC2x 5 true).tempDirRemoved = false := by
  refine ⟨rfl, rfl, rfl⟩

/-- C2 (corrected, amended): in a run where every supplied image fails
composition with each attempt completing (returning `False` rather than
raising), `create_video` returns `False`, the scratch directory is removed
by the end of the run, and the muxing invocation is never reached, so no
video file is produced; a zero-success run in which an attempt raises
instead propagates the exception with the scratch directory still
present. -/
theorem C2_zero_success (env : RunEnv) (d : ℚ) (cb : Bool)
    (h : ∀ e ∈ env.images, process_image e "" env.date = Except.ok false) :
    (create_video env d cb).ret = Except.ok false ∧
    (create_video env d cb).tempDirRemoved = true ∧
    (create_video env d cb).muxInvoked = false := by
  have hok : ∀ e ∈ env.images, isOkE (process_image e "" env.date) = true := by
    intro e he; rw [h e he]; rfl
  have hcount : env.images.countP (fun e => isSuccess (process_image e "" env.date)) = 0 := by
    rw [List.countP_eq_zero]
    intro e he
    rw [h e he]
    simp [isSuccess]
  have hp := processPhase_noRaise cb env.images.length env.date env.images 0 hok
  rw [hcount] at hp
  refine ⟨?_, ?_, ?_⟩ <;>
    · unfold create_video
      rw [hp]
      simp [runAfterImages]

/-- Witness for C2 at a concrete run: one image whose dimension probe times
out. -/
theorem C2_zero_success_witness :
    (create_video envC2w 5 true).ret = Except.ok false ∧
    (create_video envC2w 5 true).tempDirRemoved = true ∧
    (create_video envC2w 5 true).muxInvoked = false :=
  C2_zero_success envC2w 5 true (by
    intro e he
    simp only [envC2w, List.mem_singleton] at he
    subst he
    rfl)

/-- C3 is refuted at the concrete run `envC3x`: the auto-caption EXIF parse
raises `IndexError` inside the image loop, the exception escapes
`create_video`, and the scratch directory is not removed, contradicting
"the scratch directory is removed by the time the run ends" for every
outcome including raised errors. -/
theorem C3_counterexample :
    (create_video envC3x 5 true).ret = Except.error PyErr.indexError ∧
    (create_video envC3x 5 true).tempDirRemoved = false := by
  constructor <;> rfl

/-- C3 (corrected, amended): on every run in which no image-processing
attempt raises, the scratch directory is removed by run end whatever the
outcome (zero-success failure, mux exception, nonzero mux exit, or
success); a raise during the image phase escapes with the directory still
present. -/
theorem C3_amended (env : RunEnv) (d : ℚ) (cb : Bool)
    (h : ∀ e ∈ env.images, isOkE (process_image e "" env.date) = true) :
    (create_video env d cb).tempDirRemoved = true := by
  have hp := processPhase_noRaise cb env.images.length env.date env.images 0 h
  unfold create_video
  rw [hp]
  exact runAfterImages_removed env d cb _ _

/-- Witness for the amended C3 at a concrete run whose image fails and
whose muxing invocation raises. -/
theorem C3_amended_witness : (create_video envC3w 2 false).tempDirRemoved = true :=
  C3_amended envC3w 2 false (by
    intro e he
    simp only [envC3w, List.mem_singleton] at he
    subst he
    rfl)

/-- C4 (code bug): with the metadata tool invocation completing but
producing empty standard output (for example when the tool fails and prints
only to stderr), `get_exif_data` does not return the all-"N/A" record the
claim states: parsing the single colon-free line raises an uncaught
`IndexError`, and the error propagates through `process_image` (empty
caption text, successful probe) to its caller instead of being non-fatal. -/
theorem C4_exif_empty_output_raises :
    get_exif_data "" = Except.error PyErr.indexError ∧
    process_image ⟨ProcResult.completed 0 "4,4", "", ProcResult.completed 0 ""⟩ "" "2024-01-01" =
      Except.error PyErr.indexError := by
  constructor <;> rfl

/-- C5 is refuted at probed width 7: the code computes
`int(7 * 9 / 16) = 3` (truncation) while the claimed
`round(7 * 9 / 16) = round(3.9375) = 4`. -/
theorem C5_counterexample :
    bg_height 7 = 3 ∧ spec_round_div (7 * 9) 16 = 4 ∧
    bg_height 7 ≠ ((spec_round_div (7 * 9) 16 : Nat) : Int) := by
  refine ⟨rfl, rfl, ?_⟩
  decide

/-- C5 (corrected, amended): for every probed source width `w`, the frame
geometry computed by `process_image` uses truncating (floor) division
rather than rounding: `backgroundHeight = floor(w * 9 / 16)`,
`infoHeight = floor(backgroundHeight / 5)`,
`totalHeight = backgroundHeight + infoHeight`,
`fontSize = max(40, floor(totalHeight / 40))`, and
`backgroundWidth = w`. -/
theorem C5_amended (w : Nat) :
    (frameSpec (w : Int)).bgWidth = (w : Int) ∧
    (frameSpec (w : Int)).bgHeight = ((w * 9 / 16 : Nat) : Int) ∧
    (frameSpec (w : Int)).infoHeight = ((w * 9 / 16 / 5 : Nat) : Int) ∧
    (frameSpec (w : Int)).totalHeight = ((w * 9 / 16 + w * 9 / 16 / 5 : Nat) : Int) ∧
    (frameSpec (w : Int)).fontSize =
      ((max 40 ((w * 9 / 16 + w * 9 / 16 / 5) / 40) : Nat) : Int) := by
  refine ⟨rfl, rfl, rfl, rfl, ?_⟩
  rw [show (frameSpec (w : Int)).fontSize =
      max 40 (((w * 9 / 16 + w * 9 / 16 / 5) / 40 : Nat) : Int) from rfl, Nat.cast_max]
  norm_num

/-- Witness for the amended C5 at width 1920 (background height 1080). -/
theorem C5_amended_witness :
    (frameSpec (1920 : Int)).bgHeight = ((1920 * 9 / 16 : Nat) : Int) :=
  (C5_amended 1920).2.1

/-- C6 is refuted at the concrete run `envC6x`: two composition attempts
are made (the first fails, the second succeeds) yet only one "processing"
callback is delivered, where the claim predicts one per attempt. -/
theorem C6_counterexample :
    envC6x.images.length = 2 ∧
    (create_video envC6x 5 true).callbacks.countP isProcessingCb = 1 := by
  constructor <;> rfl

/-- C6 (corrected, amended): during the image-processing phase of a
non-raising run with a callback supplied, the "processing" callbacks are
exactly one per successful attempt, invoked with (number of attempts so
far, total image count, "processing"); failed attempts produce no
callback, so the number of "processing" callbacks equals the number of
successes, not the number of attempts. -/
theorem C6_amended (env : RunEnv) (d : ℚ)
    (hnr : ∀ e ∈ env.images, isOkE (process_image e "" env.date) = true) :
    (create_video env d true).callbacks.filter isProcessingCb =
      expectedProcessing true env.images.length env.date env.images 0 ∧
    ((create_video env d true).callbacks.filter isProcessingCb).length = succCount env := by
  have hp := processPhase_noRaise true env.images.length env.date env.images 0 hnr
  have hcv : create_video env d true =
      runAfterImages env d true (succCount env)
        (expectedProcessing true env.images.length env.date env.images 0) := by
    unfold create_video
    rw [hp]
    rfl
  constructor
  · rw [hcv, runAfterImages_filter, expectedProcessing_all_processing]
  · rw [hcv, runAfterImages_filter, expectedProcessing_all_processing,
      expectedProcessing_length]
    rfl

/-- Witness for the amended C6 at a concrete run with one success followed
by one failure. -/
theorem C6_amended_witness :
    (create_video envC6w 5 true).callbacks.filter isProcessingCb =
      expectedProcessing true envC6w.images.length envC6w.date envC6w.images 0 ∧
    ((create_video envC6w 5 true).callbacks.filter isProcessingCb).length = succCount envC6w :=
  C6_amended envC6w 5 (by decide)

/-- C1 is refuted at the concrete run `envC1x`: one of one image composes
successfully and the mux exits 0, but because no progress callback was
supplied the success path raises `NameError` at the final unguarded
`progress_callback(progress, 100, "compiling")` call instead of returning
`True`. -/
theorem C1_counterexample :
    succCount envC1x = 1 ∧
    (create_video envC1x 5 false).ret = Except.error PyErr.nameError := by
  constructor <;> rfl

/-- C1 (corrected, amended): for every run with a progress callback
supplied in which no image attempt raises, M >= 1 images compose
successfully, the mux process raises no exception, emits at least one
output line and exits 0, `create_video` returns `True` and the computed
total video duration equals M times the per-image duration `d` (M is the
success count, not the supplied image count). -/
theorem C1_amended (env : RunEnv) (d : ℚ)
    (hnr : ∀ e ∈ env.images, isOkE (process_image e "" env.date) = true)
    (hM : 1 ≤ succCount env) (hraise : env.muxRaises = false)
    (hrc : env.muxReturncode = 0) (b : Bool) (hlast : env.muxLines.getLast? = some b) :
    (create_video env d true).ret = Except.ok true ∧
    (create_video env d true).totalDuration = some ((succCount env : ℚ) * d) := by
  have hp := processPhase_noRaise true env.images.length env.date env.images 0 hnr
  have h0 : succCount env ≠ 0 := by omega
  have hcv : create_video env d true =
      runAfterImages env d true (succCount env)
        (expectedProcessing true env.images.length env.date env.images 0) := by
    unfold create_video
    rw [hp]
    rfl
  rw [hcv, runAfterImages_success env d (succCount env) _ h0 hraise hrc b hlast]
  exact ⟨rfl, rfl⟩

/-- Witness for the amended C1 at a concrete run: one success, callback
supplied, mux emits a line and exits 0; duration 5 gives total duration
1 * 5. -/
theorem C1_amended_witness :
    (create_video envC1w 5 true).ret = Except.ok true ∧
    (create_video envC1w 5 true).totalDuration = some ((succCount envC1w : ℚ) * 5) :=
  C1_amended envC1w 5 (by decide) (by decide) rfl rfl true rfl

/-- C7 (confirmed): if the probed audio duration is unavailable or
non-positive, `process_audio_for_video` returns no track; when it returns a
track, the loop count equals `ceil(requiredDuration / sourceDuration)` (the
minimal loop count whose total covers the required duration) and the
command truncates the output to exactly the required duration; and a run
whose audio conditioning fails still proceeds to the muxing invocation. -/
theorem C7_audio (aenv : AudioJobEnv) (dur : ℚ) :
    (get_audio_duration aenv.probe ≤ 0 → process_audio_for_video aenv dur = none) ∧
    (∀ cmd, process_audio_for_video aenv dur = some cmd →
      cmd.loop_count = Int.ceil (dur / get_audio_duration aenv.probe) ∧
      cmd.truncate_t = dur ∧
      dur ≤ (cmd.loop_count : ℚ) * get_audio_duration aenv.probe ∧
      (∀ k : Int, dur ≤ (k : ℚ) * get_audio_duration aenv.probe → cmd.loop_count ≤ k)) ∧
    (∀ (env : RunEnv) (d : ℚ) (cb : Bool), env.music = some aenv →
      (∀ e ∈ env.images, isOkE (process_image e "" env.date) = true) →
      succCount env ≠ 0 → (create_video env d cb).muxInvoked = true) := by
  refine ⟨?_, ?_, ?_⟩
  · intro h
    simp only [process_audio_for_video]
    rw [if_pos h]
  · intro cmd h
    simp only [process_audio_for_video] at h
    by_cases hs : get_audio_duration aenv.probe ≤ 0
    · rw [if_pos hs] at h
      exact absurd h (by simp)
    · rw [if_neg hs] at h
      push_neg at hs
      cases hj : aenv.job with
      | timedOut =>
        rw [hj] at h
        exact absurd h (by simp)
      | completed rc out =>
        rw [hj] at h
        simp only [] at h
        by_cases hrc : rc ≠ 0
        · rw [if_pos hrc] at h
          exact absurd h (by simp)
        · rw [if_neg hrc] at h
          injection h with h2
          subst h2
          refine ⟨rfl, rfl, ?_, ?_⟩
          · exact (div_le_iff₀ hs).mp (Int.le_ceil (dur / get_audio_duration aenv.probe))
          · intro k hk
            exact Int.ceil_le.mpr ((div_le_iff₀ hs).mpr hk)
  · intro env d cb hmus hnr h0
    have hp := processPhase_noRaise cb env.images.length env.date env.images 0 hnr
    unfold create_video
    rw [hp]
    exact runAfterImages_muxInvoked env d cb _ _ h0

/-- Witness for C7: a probe without a duration gives 0, so conditioning
fails and no track is produced. -/
theorem C7_audio_witness :
    process_audio_for_video ⟨AudioProbe.noDuration, ProcResult.completed 0 ""⟩ 7 = none :=
  (C7_audio ⟨AudioProbe.noDuration, ProcResult.completed 0 ""⟩ 7).1 (le_refl 0)

/-- C8 is refuted at a concrete input on which none of the enumerated
failure conditions holds (probe fine, dimensions `120,80`, compositing
would exit 0): with empty caption text and empty EXIF output,
`process_image` raises `IndexError` instead of returning a boolean. -/
theorem C8_counterexample :
    process_image ⟨ProcResult.completed 0 "120,80", "", ProcResult.completed 0 ""⟩ ""
      "2024-01-04" = Except.error PyErr.indexError ∧
    imageFailCond ⟨ProcResult.completed 0 "120,80", "", ProcResult.completed 0 ""⟩ = false := by
  constructor <;> rfl

/-- C8 (corrected, amended): provided the caption step does not raise
(non-empty caption text, or EXIF output whose parse succeeds),
`process_image` returns `False` exactly when the dimension probe fails or
times out, the probed dimensions are invalid or unparsable, the compositing
tool exits nonzero, or the compositing invocation times out, and returns
`True` otherwise; with an auto-generated caption and unparsable EXIF output
it instead propagates `IndexError`. -/
theorem C8_amended (e : ImageEnv) (text date : String)
    (hcap : text ≠ "" ∨ isOkE (get_exif_data e.exifOut) = true) :
    process_image e text date = Except.ok (!(imageFailCond e)) := by
  have hcap2 : ∀ er, captionFor text e.exifOut date ≠ Except.error er := by
    intro er hcf
    unfold captionFor at hcf
    by_cases ht : text = ""
    · rw [if_pos ht] at hcf
      rcases hcap with hx | hx
      · exact hx ht
      · cases hge : get_exif_data e.exifOut with
        | error e2 =>
          rw [hge] at hx
          simp [isOkE] at hx
        | ok dd =>
          rw [hge] at hcf
          simp only [] at hcf
          split at hcf <;> simp at hcf
    · rw [if_neg ht] at hcf
      simp at hcf
  unfold process_image imageFailCond
  cases e.probe with
  | timedOut => rfl
  | completed rc out =>
    by_cases hrc : rc = 0
    · subst hrc
      simp only [ne_eq, not_true, if_false, decide_not]
      by_cases hlen : (pySplitChar (Char.ofNat 44) (pyStrip out)).length < 2
      · simp [hlen]
      · cases h0 : pyInt ((pySplitChar (Char.ofNat 44) (pyStrip out)).getD 0 "") with
        | none => simp [hlen, h0]
        | some w =>
          cases h1 : pyInt ((pySplitChar (Char.ofNat 44) (pyStrip out)).getD 1 "") with
          | none => simp [hlen, h0, h1]
          | some ht =>
            cases hcf : captionFor text e.exifOut date with
            | error er => exact absurd hcf (hcap2 er)
            | ok cap =>
              cases hcomp : e.compose with
              | timedOut => simp [hlen, h0, h1, hcf, hcomp]
              | completed crc cout =>
                by_cases hcrc : crc = 0
                · subst hcrc
                  simp [hlen, h0, h1, hcf, hcomp]
                · simp [hlen, h0, h1, hcf, hcomp, hcrc]
    · simp [hrc]

/-- Witness for the amended C8: a probe timeout with supplied caption text
returns `False`, matching the failure condition. -/
theorem C8_amended_witness :
    process_image ⟨ProcResult.timedOut, "", ProcResult.timedOut⟩ "cap" "2024" =
      Except.ok (!(imageFailCond ⟨ProcResult.timedOut, "", ProcResult.timedOut⟩)) :=
  C8_amended ⟨ProcResult.timedOut, "", ProcResult.timedOut⟩ "cap" "2024"
    (Or.inl (by decide))

/-- C9 is refuted at the concrete successful run `envC9x`: the run succeeds
but the final progress callback is `(70, 100, "compiling")`, which does not
report completion at 100%. -/
theorem C9_counterexample :
    (create_video envC9x 5 true).ret = Except.ok true ∧
    (create_video envC9x 5 true).callbacks.getLast? =
      some ⟨muxProgress false, 100, Phase.compiling⟩ ∧
    muxProgress false = 70 ∧ (70 : ℚ) ≠ 100 := by
  refine ⟨rfl, rfl, by norm_num [muxProgress], by norm_num⟩

/-- C9 (corrected, amended): in every non-raising run with a callback
supplied that reaches muxing and succeeds, the callback trace is the
processing calls, then `(0, 0, "compiling")` at the start of muxing, then
one `(70 + 15 * alive, 100, "compiling")` call per output line, and the
final callback repeats the last mid-mux value (70 or 85, never 100%). -/
theorem C9_amended (env : RunEnv) (d : ℚ)
    (hnr : ∀ e ∈ env.images, isOkE (process_image e "" env.date) = true)
    (hM : succCount env ≠ 0) (hraise : env.muxRaises = false)
    (hrc : env.muxReturncode = 0) (b : Bool) (hlast : env.muxLines.getLast? = some b) :
    (create_video env d true).callbacks =
      (expectedProcessing true env.images.length env.date env.images 0 ++
        [⟨0, 0, Phase.compiling⟩] ++
        env.muxLines.map (fun x => ⟨muxProgress x, 100, Phase.compiling⟩)) ++
      [⟨muxProgress b, 100, Phase.compiling⟩] ∧
    (muxProgress b = 70 ∨ muxProgress b = 85) := by
  have hp := processPhase_noRaise true env.images.length env.date env.images 0 hnr
  have hcv : create_video env d true =
      runAfterImages env d true (succCount env)
        (expectedProcessing true env.images.length env.date env.images 0) := by
    unfold create_video
    rw [hp]
    rfl
  rw [hcv, runAfterImages_success env d (succCount env) _ hM hraise hrc b hlast]
  refine ⟨rfl, ?_⟩
  cases b
  · left
    norm_num [muxProgress]
  · right
    norm_num [muxProgress]

/-- Witness for the amended C9 at a concrete successful run with one mux
output line observed while the process was still running. -/
theorem C9_amended_witness :
    (create_video envC9w 5 true).callbacks =
      (expectedProcessing true envC9w.images.length envC9w.date envC9w.images 0 ++
        [⟨0, 0, Phase.compiling⟩] ++
        envC9w.muxLines.map (fun x => ⟨muxProgress x, 100, Phase.compiling⟩)) ++
      [⟨muxProgress true, 100, Phase.compiling⟩] ∧
    (muxProgress true = 70 ∨ muxProgress true = 85) :=
  C9_amended envC9w 5 (by decide) (by decide) rfl rfl true rfl

/-- C10 (code bug): a run invoked with the progress callback omitted whose
two images compose successfully and whose mux exits 0 does not return
`True`: the final unguarded `progress_callback(progress, 100, "compiling")`
call on the success path raises `NameError` (`progress` is unbound and the
callback is `None`). -/
theorem C10_none_callback_raises :
    (create_video envC10x 3 false).ret = Except.error PyErr.nameError := rfl

end ImageToVideo
